import Mathlib

/-!
Verification of the session-scoped download orchestrator of
`ninja-con-gafas/music-downloader` (`src/SessionManager.py`).

The Python classes `DownloadItem`, `DownloadSession`, `SessionManager` and
`SessionAwareDownloadExecutor` are embedded shallowly: `datetime.now()` calls
become an explicit `now : Nat` argument, `uuid.uuid4()` becomes an explicit
`new_id : String` argument, Python dictionaries become association lists with
first-occurrence semantics (matching `dict` insertion-order behaviour), and the
thread pool of the executor is serialised in dispatch order (every task outcome
is deterministic data here and all aggregate counters are recomputed by a full
rescan, so the final registry state does not depend on the interleaving).
-/

namespace MusicDownloader

/-- `DownloadStatus` enumeration (SessionManager.py lines 20-29). -/
inductive DownloadStatus where
  | completed
  | downloading
  | failed
  | skipped
  | queued
  deriving DecidableEq, Repr

/-- `SessionStatus` enumeration (SessionManager.py lines 31-39).
Note the source enum has no `failed` member. -/
inductive SessionStatus where
  | cancelled
  | completed
  | pending
  | running
  deriving DecidableEq, Repr

/-- Opaque caller-supplied metadata mapping. -/
abbrev Metadata := List (String × String)

/-- `DownloadItem` dataclass (SessionManager.py lines 41-68), with the same
field defaults. Timestamps are abstract instants (`Nat`), progress is exact
(`Rat`). -/
structure DownloadItem where
  id : String
  name : String
  url : String
  completed_at : Option Nat := none
  error_message : Option String := none
  file_path : Option String := none
  metadata : Metadata := []
  progress : Rat := 0
  started_at : Option Nat := none
  status : DownloadStatus := DownloadStatus.queued
  deriving DecidableEq, Repr

/-- `DownloadSession` dataclass (SessionManager.py lines 89-118), with the same
field defaults; `created_at` (a `datetime.now()` default in Python) is supplied
by the construction site. -/
structure DownloadSession where
  name : String
  session_id : String
  created_at : Nat
  completed_at : Option Nat := none
  completed_items : Nat := 0
  downloads : List DownloadItem := []
  failed_items : Nat := 0
  metadata : Metadata := []
  started_at : Option Nat := none
  status : SessionStatus := SessionStatus.pending
  total_items : Nat := 0
  deriving DecidableEq, Repr

/-- State of a `SessionManager` (SessionManager.py lines 189-211): the session
dictionary, the per-session lock keys, the keys holding an active-futures list,
and the two configuration values. Lock objects and future handles carry no
registry-observable state beyond their key, so the two sibling maps are key
lists. -/
structure SessionManager where
  sessions : List (String × DownloadSession) := []
  session_locks : List String := []
  active_futures : List String := []
  max_concurrent_sessions : Nat := 1
  session_timeout : Int := 60
  deriving DecidableEq, Repr

/-- Dictionary lookup on an association list (Python `dict.get` /
`key in dict`): first occurrence wins. -/
def dlookup {α : Type} : List (String × α) → String → Option α
  | [], _ => none
  | e :: rest, k => if e.1 == k then some e.2 else dlookup rest k

/-- Dictionary assignment `d[k] = v`: replaces the first occurrence in place,
appends when the key is absent (Python dicts keep insertion order). -/
def dinsert {α : Type} : List (String × α) → String → α → List (String × α)
  | [], k, v => [(k, v)]
  | e :: rest, k, v => if e.1 == k then (k, v) :: rest else e :: dinsert rest k v

/-- Dictionary removal `d.pop(k, None)`. -/
def derase {α : Type} (l : List (String × α)) (k : String) : List (String × α) :=
  l.filter (fun e => !(e.1 == k))

/-- Key-set assignment for the lock/futures maps: adding a key that is already
present changes nothing. -/
def kinsert (l : List String) (k : String) : List String :=
  if l.contains k then l else l ++ [k]

/-- Key-set removal for the lock/futures maps. -/
def kerase (l : List String) (k : String) : List String :=
  l.filter (fun x => !(x == k))

/-- Number of items of `ds` whose status is `st`. -/
def countStatus (ds : List DownloadItem) (st : DownloadStatus) : Nat :=
  (ds.filter (fun d => d.status == st)).length

/-- `DownloadSession.add_download` (SessionManager.py lines 120-130): append
the item and refresh `total_items` from the list length. -/
def add_download (s : DownloadSession) (item : DownloadItem) : DownloadSession :=
  let ds := s.downloads ++ [item]
  { s with downloads := ds, total_items := ds.length }

/-- Result record of `DownloadSession.get_progress_summary`. -/
structure ProgressSummary where
  completed_at : Option Nat
  completed_items : Nat
  created_at : Nat
  downloading_items : Nat
  failed_items : Nat
  name : String
  overall_progress : Rat
  queued_items : Int
  session_id : String
  started_at : Option Nat
  status : SessionStatus
  total_items : Nat
  deriving DecidableEq, Repr

/-- `DownloadSession.get_progress_summary` (SessionManager.py lines 132-158):
counts are recomputed by scanning `downloads`; the overall progress division is
guarded by `total_items > 0`. -/
def get_progress_summary (s : DownloadSession) : ProgressSummary :=
  let completed := countStatus s.downloads DownloadStatus.completed
  let failed := countStatus s.downloads DownloadStatus.failed
  let downloading := countStatus s.downloads DownloadStatus.downloading
  { completed_at := s.completed_at
    completed_items := completed
    created_at := s.created_at
    downloading_items := downloading
    failed_items := failed
    name := s.name
    overall_progress :=
      if s.total_items > 0 then ((completed : Rat) + (failed : Rat)) / (s.total_items : Rat) * 100
      else 0
    queued_items := (s.total_items : Int) - completed - failed - downloading
    session_id := s.session_id
    started_at := s.started_at
    status := s.status
    total_items := s.total_items }

/-- `SessionManager._get_active_sessions_count` (SessionManager.py lines
232-241). -/
def get_active_sessions_count (m : SessionManager) : Nat :=
  (m.sessions.filter (fun e =>
    e.2.status == SessionStatus.pending || e.2.status == SessionStatus.running)).length

/-- The per-item effect of `SessionManager.cancel_session` (SessionManager.py
lines 273-279): items still queued or downloading are marked failed with the
fixed message, and get `completed_at` stamped only when it is unset; every
other item is left alone. -/
def cancel_item_on_session_cancel (now : Nat) (item : DownloadItem) : DownloadItem :=
  if item.status == DownloadStatus.queued || item.status == DownloadStatus.downloading then
    { item with
      status := DownloadStatus.failed
      error_message := some "Session cancelled"
      completed_at := if item.completed_at.isNone then some now else item.completed_at }
  else item

/-- The session value written back by a successful cancellation
(SessionManager.py lines 269-279): cancelled status, stamped `completed_at`,
and every still-active item rewritten. -/
def cancelled_session (s : DownloadSession) (now : Nat) : DownloadSession :=
  { s with
    status := SessionStatus.cancelled
    completed_at := some now
    downloads := s.downloads.map (cancel_item_on_session_cancel now) }

/-- `SessionManager.cancel_session` (SessionManager.py lines 243-281). Returns
the Python boolean result paired with the new registry state. Cancelling the
in-flight futures touches only the pool, not the registry maps. -/
def cancel_session (m : SessionManager) (session_id : String) (now : Nat) :
    Bool × SessionManager :=
  match dlookup m.sessions session_id with
  | none => (false, m)
  | some session =>
    if session.status == SessionStatus.completed || session.status == SessionStatus.cancelled then
      (false, m)
    else
      (true, { m with sessions := dinsert m.sessions session_id (cancelled_session session now) })

/-- `SessionManager.cleanup_session` (SessionManager.py lines 283-306): cancel
first (best effort), then drop the session, its lock and its futures entry. -/
def cleanup_session (m : SessionManager) (session_id : String) (now : Nat) :
    Bool × SessionManager :=
  if (dlookup m.sessions session_id).isNone then (false, m)
  else
    let m1 := (cancel_session m session_id now).2
    (true, { m1 with
      sessions := derase m1.sessions session_id
      session_locks := kerase m1.session_locks session_id
      active_futures := kerase m1.active_futures session_id })

/-- The expiry test of `SessionManager._cleanup_expired_sessions`
(SessionManager.py line 225): a session is expired exactly when its age
exceeds the configured timeout. -/
def session_expired (m : SessionManager) (now : Nat) (s : DownloadSession) : Bool :=
  decide ((now : Int) - (s.created_at : Int) > m.session_timeout)

/-- `SessionManager._cleanup_expired_sessions` (SessionManager.py lines
213-230): collect the ids of expired sessions, then clean each up. -/
def cleanup_expired_sessions (m : SessionManager) (now : Nat) : SessionManager :=
  let expired := (m.sessions.filter (fun e => session_expired m now e.2)).map (fun e => e.1)
  expired.foldl (fun acc sid => (cleanup_session acc sid now).2) m

/-- Error raised by `SessionManager.create_session` (the `ValueError` of
SessionManager.py line 334, the spec's `CapacityExceeded`). -/
inductive CreateError where
  | capacityExceeded
  deriving DecidableEq, Repr

/-- The session value built by `create_session` (SessionManager.py lines
336-338): every field except name, id, creation time and metadata is a
dataclass default. `metadata or \x7b\x7d` maps a missing or empty mapping to
the empty mapping. -/
def fresh_session (name new_id : String) (metadata : Metadata) (now : Nat) : DownloadSession :=
  { name := name, session_id := new_id, created_at := now, metadata := metadata }

/-- `SessionManager.create_session` (SessionManager.py lines 308-345): sweep
expired sessions, then fail when the active count has reached the cap (the
Python exception leaves the swept state behind, so the state is returned in
both cases); otherwise store a fresh pending session under the new id and
install its lock and empty futures list. `new_id` models the `uuid.uuid4()`
draw. -/
def create_session (m : SessionManager) (name : String) (metadata : Option Metadata)
    (new_id : String) (now : Nat) : Except CreateError DownloadSession × SessionManager :=
  let m1 := cleanup_expired_sessions m now
  if get_active_sessions_count m1 ≥ m1.max_concurrent_sessions then
    (Except.error CreateError.capacityExceeded, m1)
  else
    let session := fresh_session name new_id (metadata.getD []) now
    (Except.ok session,
     { m1 with
       sessions := dinsert m1.sessions new_id session
       session_locks := kinsert m1.session_locks new_id
       active_futures := kinsert m1.active_futures new_id })

/-- Callers add items through the session object returned by `get_session` /
`create_session` (downloader.py lines 59 and 172); on the registry this is an
in-place update of the stored entry. -/
def manager_add_download (m : SessionManager) (session_id : String) (item : DownloadItem) :
    SessionManager :=
  match dlookup m.sessions session_id with
  | none => m
  | some session =>
    { m with sessions := dinsert m.sessions session_id (add_download session item) }

/-- A `DownloadItem` as the callers construct one (downloader.py lines 48-58
and 161-171): only id, name, url and metadata are supplied, the rest are the
dataclass defaults (queued, progress 0, no timestamps). -/
def mkDownloadItem (id name url : String) (metadata : Metadata) : DownloadItem :=
  { id := id, name := name, url := url, metadata := metadata }

/-- The status branch of `SessionManager.update_download_item`
(SessionManager.py lines 436-442): assign the status; on downloading stamp
`started_at` only when unset; on completed or failed stamp `completed_at`
unconditionally. -/
def apply_status (now : Nat) (st : DownloadStatus) (item : DownloadItem) : DownloadItem :=
  let item1 := { item with status := st }
  if st == DownloadStatus.downloading && item1.started_at.isNone then
    { item1 with started_at := some now }
  else if st == DownloadStatus.completed || st == DownloadStatus.failed then
    { item1 with completed_at := some now }
  else item1

/-- The per-item field updates of `SessionManager.update_download_item`
(SessionManager.py lines 436-451): each argument is applied only when present. -/
def update_item_fields (item : DownloadItem) (status : Option DownloadStatus)
    (progress : Option Rat) (error_message : Option String) (file_path : Option String)
    (now : Nat) : DownloadItem :=
  let i1 := match status with
    | none => item
    | some st => apply_status now st item
  let i2 := match progress with
    | none => i1
    | some p => { i1 with progress := p }
  let i3 := match error_message with
    | none => i2
    | some e => { i2 with error_message := some e }
  match file_path with
  | none => i3
  | some f => { i3 with file_path := some f }

/-- The linear scan of `SessionManager.update_download_item` (SessionManager.py
lines 434-452): update the first item whose id matches, then stop (`break`). -/
def update_first_item (ds : List DownloadItem) (item_id : String)
    (status : Option DownloadStatus) (progress : Option Rat) (error_message : Option String)
    (file_path : Option String) (now : Nat) : List DownloadItem :=
  match ds with
  | [] => []
  | d :: rest =>
    if d.id == item_id then
      update_item_fields d status progress error_message file_path now :: rest
    else
      d :: update_first_item rest item_id status progress error_message file_path now

/-- The session-level effect of `SessionManager.update_download_item`
(SessionManager.py lines 433-456): scan-and-update the item list, then
recompute `completed_items` and `failed_items` by a full rescan (this rescan
happens whether or not the item id was found). -/
def session_update_item (s : DownloadSession) (item_id : String)
    (status : Option DownloadStatus) (progress : Option Rat) (error_message : Option String)
    (file_path : Option String) (now : Nat) : DownloadSession :=
  let ds := update_first_item s.downloads item_id status progress error_message file_path now
  { s with
    downloads := ds
    completed_items := countStatus ds DownloadStatus.completed
    failed_items := countStatus ds DownloadStatus.failed }

/-- `SessionManager.update_download_item` (SessionManager.py lines 414-456):
nothing happens when the session id is unknown. -/
def update_download_item (m : SessionManager) (session_id item_id : String)
    (status : Option DownloadStatus) (progress : Option Rat) (error_message : Option String)
    (file_path : Option String) (now : Nat) : SessionManager :=
  match dlookup m.sessions session_id with
  | none => m
  | some session =>
    let s1 := session_update_item session item_id status progress error_message file_path now
    { m with sessions := dinsert m.sessions session_id s1 }

/-- `SessionManager.update_session_status` (SessionManager.py lines 458-475):
assign the status; on running stamp `started_at` only when unset; on completed
or cancelled stamp `completed_at` unconditionally. -/
def update_session_status (m : SessionManager) (session_id : String)
    (status : SessionStatus) (now : Nat) : SessionManager :=
  match dlookup m.sessions session_id with
  | none => m
  | some session =>
    let s1 := { session with status := status }
    let s2 :=
      if status == SessionStatus.running && s1.started_at.isNone then
        { s1 with started_at := some now }
      else if status == SessionStatus.completed || status == SessionStatus.cancelled then
        { s1 with completed_at := some now }
      else s1
    { m with sessions := dinsert m.sessions session_id s2 }

/-- What the caller-supplied work function does for one item, per the boundary
contract: invoke the completion callback with a file path and return true,
invoke the error callback with a message and return false, or raise (the raise
is caught by the task wrapper, SessionManager.py lines 557-562). -/
inductive WorkOutcome where
  | success (file_path : String)
  | failure (error_message : String)
  | raised (error_message : String)
  deriving DecidableEq, Repr

/-- `SessionAwareDownloadExecutor._download_with_session_context`
(SessionManager.py lines 514-562) together with the callback bodies it wires up
(`_completion_callback` lines 498-512, `_error_callback` lines 564-577): mark
the item downloading, then record the outcome the work function produced. -/
def download_with_session_context (m : SessionManager) (session_id : String)
    (item : DownloadItem) (outcome : WorkOutcome) (now : Nat) : Bool × SessionManager :=
  let m1 := update_download_item m session_id item.id (some DownloadStatus.downloading)
    none none none now
  match outcome with
  | WorkOutcome.success fp =>
    (true, update_download_item m1 session_id item.id (some DownloadStatus.completed)
      (some 100) none (some fp) now)
  | WorkOutcome.failure msg =>
    (false, update_download_item m1 session_id item.id (some DownloadStatus.failed)
      none (some msg) none now)
  | WorkOutcome.raised msg =>
    (false, update_download_item m1 session_id item.id (some DownloadStatus.failed)
      none (some msg) none now)

/-- Errors raised by `SessionAwareDownloadExecutor.execute_session_downloads`
(the two `ValueError`s of SessionManager.py lines 611 and 615; the spec's
`SessionNotFound` and `InvalidState`). -/
inductive ExecError where
  | sessionNotFound
  | invalidState
  deriving DecidableEq, Repr

/-- `SessionAwareDownloadExecutor.execute_session_downloads` (SessionManager.py
lines 592-655), with the worker pool serialised in dispatch order: reject an
unknown id or a non-pending session, move the session to running, run every
item of the session snapshot, then mark the session completed
(unconditionally — the source enum has no failed session status) and drop the
futures entry registered for the session (the `finally` pop of line 654). -/
def execute_session_downloads (m : SessionManager) (session_id : String)
    (work : DownloadItem → WorkOutcome) (now : Nat) : Except ExecError SessionManager :=
  match dlookup m.sessions session_id with
  | none => Except.error ExecError.sessionNotFound
  | some session =>
    if !(session.status == SessionStatus.pending) then Except.error ExecError.invalidState
    else
      let m1 := update_session_status m session_id SessionStatus.running now
      let m2 := session.downloads.foldl
        (fun acc item => (download_with_session_context acc session_id item (work item) now).2) m1
      let m3 := update_session_status m2 session_id SessionStatus.completed now
      Except.ok { m3 with active_futures := kerase m3.active_futures session_id }

/-- No two entries of the session dictionary share a key: the invariant every
Python dict satisfies by construction. -/
@[reducible] def KeysUnique {α : Type} (l : List (String × α)) : Prop :=
  ∀ e ∈ l, ∀ e2 ∈ l, e.1 = e2.1 → e = e2

/-! ### Item-level operation sequences -/

/-- One registry-facing mutation of a single session: either a caller adds a
freshly constructed item (downloader.py builds items with the dataclass
defaults) or an `update_download_item` call reaches the session. -/
inductive SessionOp where
  | add (id name url : String) (metadata : Metadata)
  | update (item_id : String) (status : Option DownloadStatus) (progress : Option Rat)
      (error_message : Option String) (file_path : Option String) (now : Nat)

/-- Apply one operation to a session, exactly as `DownloadSession.add_download`
and the session-level part of `SessionManager.update_download_item` do. -/
def apply_session_op (s : DownloadSession) : SessionOp → DownloadSession
  | SessionOp.add id name url md => add_download s (mkDownloadItem id name url md)
  | SessionOp.update item_id st p e f now => session_update_item s item_id st p e f now

/-- The counter fields agree with the stored item list. -/
def counters_consistent (s : DownloadSession) : Prop :=
  s.total_items = s.downloads.length ∧
  s.completed_items = countStatus s.downloads DownloadStatus.completed ∧
  s.failed_items = countStatus s.downloads DownloadStatus.failed

/-- The expiry predicate of the specification, written from the spec's words
for comparison with the code's `session_expired`: expired when the age exceeds
the timeout, or when the session is terminal with a `completed_at` older than
the grace period. The grace period has no counterpart anywhere in the source. -/
def session_expired_spec (timeout grace : Int) (now : Nat) (s : DownloadSession) : Bool :=
  decide ((now : Int) - (s.created_at : Int) > timeout) ||
  ((s.status == SessionStatus.completed || s.status == SessionStatus.cancelled) &&
   s.completed_at.isSome &&
   decide ((now : Int) - ((s.completed_at.getD 0 : Nat) : Int) > grace))

/-! ### Concrete scenarios -/

/-- Five-item session: manager after creation and population. -/
def partial_run_base : SessionManager :=
  [("i1", "t1"), ("i2", "t2"), ("i3", "t3"), ("i4", "t4"), ("i5", "t5")].foldl
    (fun m p => manager_add_download m "s1" (mkDownloadItem p.1 p.2 "url" []))
    (create_session {} "batch" none "s1" 0).2

/-- Work function that deterministically fails items 2 and 4 and succeeds on
items 1, 3 and 5. -/
def partial_work : DownloadItem → WorkOutcome := fun item =>
  if item.id == "i2" || item.id == "i4" then WorkOutcome.failure "boom"
  else WorkOutcome.success (item.name ++ ".mp3")

/-- Registry after executing the five-item session. -/
def partial_run_final : SessionManager :=
  (execute_session_downloads partial_run_base "s1" partial_work 10).toOption.getD {}

/-- Two-item session in which every item fails. -/
def all_fail_base : SessionManager :=
  manager_add_download
    (manager_add_download (create_session {} "batch" none "s2" 0).2
      "s2" (mkDownloadItem "j1" "a" "u" []))
    "s2" (mkDownloadItem "j2" "b" "u" [])

/-- Registry after executing the all-failing session. -/
def all_fail_final : SessionManager :=
  (execute_session_downloads all_fail_base "s2" (fun _ => WorkOutcome.failure "err") 10).toOption.getD {}

/-- A session that is terminal with an old `completed_at` but a young
`created_at`: the spec's grace-period clause calls it expired. -/
def stale_terminal_session : DownloadSession :=
  { name := "old", session_id := "s", created_at := 100,
    status := SessionStatus.completed, completed_at := some 0 }

/-- Registry holding only `stale_terminal_session`. -/
def stale_terminal_mgr : SessionManager :=
  { sessions := [("s", stale_terminal_session)], session_locks := ["s"],
    active_futures := ["s"] }

/-- Registry with one expired session (age 100 at time 100) and one young one
(age 10), for exercising the sweep. -/
def sweep_w_old : DownloadSession := { name := "old", session_id := "old", created_at := 0 }

/-- The young session of the sweep scenario. -/
def sweep_w_new : DownloadSession := { name := "new", session_id := "new", created_at := 90 }

/-- The sweep scenario registry. -/
def sweep_w_mgr : SessionManager :=
  { sessions := [("old", sweep_w_old), ("new", sweep_w_new)],
    session_locks := ["old", "new"], active_futures := ["old", "new"] }

/-- One-item session freshly created and populated. -/
def restamp_m2 : SessionManager :=
  manager_add_download (create_session {} "batch" none "s1" 0).2
    "s1" (mkDownloadItem "i1" "n1" "u1" [])

/-- After a first completed-update at time 5. -/
def restamp_m3 : SessionManager :=
  update_download_item restamp_m2 "s1" "i1" (some DownloadStatus.completed) none none none 5

/-- After a second completed-update at time 9. -/
def restamp_m4 : SessionManager :=
  update_download_item restamp_m3 "s1" "i1" (some DownloadStatus.completed) none none none 9

/-- One-item session for the repeated-downloading-update scenario. -/
def dl_w_mgr : SessionManager :=
  manager_add_download (create_session {} "b" none "s1" 0).2
    "s1" (mkDownloadItem "i1" "n" "u" [])

/-- One-item session that is cancelled at time 5: the cancellation marks the
queued item failed but leaves `failed_items` at its stale value 0, because
`cancel_session` never recomputes the counters. -/
def stale_mgr_cancelled : SessionManager :=
  (cancel_session
    (manager_add_download (create_session {} "batch" none "s1" 0).2
      "s1" (mkDownloadItem "i1" "n1" "u1" []))
    "s1" 5).2

/-- Result of an `update_download_item` call naming an unknown item id on the
cancelled registry. -/
def stale_mgr_bogus_update : SessionManager :=
  update_download_item stale_mgr_cancelled "s1" "missing" none none none none 7

/-- Two-item running session (one queued, one already completed) for the
cancellation scenario. -/
def cancel_w_session : DownloadSession :=
  { name := "n", session_id := "s1", created_at := 0,
    downloads := [{ id := "a", name := "x", url := "u" },
      { id := "b", name := "y", url := "u", status := DownloadStatus.completed,
        completed_at := some 1 }],
    status := SessionStatus.running, total_items := 2 }

/-- Registry holding `cancel_w_session`. -/
def cancel_w_mgr : SessionManager :=
  { sessions := [("s1", cancel_w_session)], session_locks := ["s1"],
    active_futures := ["s1"] }

/-! ### Dictionary lemmas -/

theorem dlookup_dinsert {α : Type} (l : List (String × α)) (k : String) (v : α) (q : String) :
    dlookup (dinsert l k v) q = if q = k then some v else dlookup l q := by
  induction l with
  | nil =>
    by_cases h : q = k <;> simp [dinsert, dlookup, h, beq_iff_eq]
    intro h2
    exact absurd h2.symm h
  | cons e rest ih =>
    by_cases hek : e.1 = k
    · by_cases hqk : q = k
      · simp [dinsert, dlookup, hek, hqk, beq_iff_eq]
      · have hkq : ¬ k = q := fun h => hqk h.symm
        simp [dinsert, dlookup, hek, hqk, hkq, beq_iff_eq]
    · by_cases hqe : e.1 = q
      · have hqk : ¬ q = k := fun h => hek (hqe.trans h)
        simp [dinsert, dlookup, hek, hqe, hqk, beq_iff_eq]
      · simp [dinsert, dlookup, hek, hqe, beq_iff_eq, ih]

theorem dinsert_of_lookup_none {α : Type} (l : List (String × α)) (k : String) (v : α)
    (h : dlookup l k = none) : dinsert l k v = l ++ [(k, v)] := by
  induction l with
  | nil => simp [dinsert]
  | cons e rest ih =>
    by_cases hek : e.1 = k
    · simp [dlookup, hek, beq_iff_eq] at h
    · simp [dlookup, hek, beq_iff_eq] at h
      simp [dinsert, hek, beq_iff_eq, ih h]

theorem derase_of_lookup_none {α : Type} (l : List (String × α)) (k : String)
    (h : dlookup l k = none) : derase l k = l := by
  induction l with
  | nil => simp [derase]
  | cons e rest ih =>
    by_cases hek : e.1 = k
    · simp [dlookup, hek, beq_iff_eq] at h
    · simp [dlookup, hek, beq_iff_eq] at h
      unfold derase at ih ⊢
      rw [List.filter_cons]
      simp [hek, ih h]

theorem derase_dinsert {α : Type} (l : List (String × α)) (k : String) (v : α) :
    derase (dinsert l k v) k = derase l k := by
  induction l with
  | nil => simp [dinsert, derase]
  | cons e rest ih =>
    by_cases hek : e.1 = k
    · unfold dinsert derase
      rw [if_pos (by simp [hek]), List.filter_cons, List.filter_cons]
      simp [hek]
    · unfold derase at ih ⊢
      unfold dinsert
      rw [if_neg (by simp [hek]), List.filter_cons, List.filter_cons]
      simp [hek, ih]

theorem dlookup_filter {α : Type} (l : List (String × α)) (q : (String × α) → Bool)
    (k : String) (v : α) (h : dlookup l k = some v) (hq : q (k, v) = true) :
    dlookup (l.filter q) k = some v := by
  induction l with
  | nil => simp [dlookup] at h
  | cons e rest ih =>
    by_cases hek : e.1 = k
    · simp [dlookup, hek, beq_iff_eq] at h
      have he : e = (k, v) := by
        cases e
        simp_all
      rw [he]
      simp [List.filter, hq, dlookup]
    · simp [dlookup, hek, beq_iff_eq] at h
      rcases hqe : q e with _ | _
      · simp [List.filter, hqe, ih h]
      · simp [List.filter, hqe, dlookup, hek, beq_iff_eq, ih h]

/-! ### Item update lemmas -/

@[simp] theorem apply_status_id (now : Nat) (st : DownloadStatus) (item : DownloadItem) :
    (apply_status now st item).id = item.id := by
  cases st <;> cases hs : item.started_at <;> unfold apply_status <;> simp [hs]

@[simp] theorem apply_status_name (now : Nat) (st : DownloadStatus) (item : DownloadItem) :
    (apply_status now st item).name = item.name := by
  cases st <;> cases hs : item.started_at <;> unfold apply_status <;> simp [hs]

@[simp] theorem apply_status_url (now : Nat) (st : DownloadStatus) (item : DownloadItem) :
    (apply_status now st item).url = item.url := by
  cases st <;> cases hs : item.started_at <;> unfold apply_status <;> simp [hs]

@[simp] theorem apply_status_metadata (now : Nat) (st : DownloadStatus) (item : DownloadItem) :
    (apply_status now st item).metadata = item.metadata := by
  cases st <;> cases hs : item.started_at <;> unfold apply_status <;> simp [hs]

@[simp] theorem apply_status_progress (now : Nat) (st : DownloadStatus) (item : DownloadItem) :
    (apply_status now st item).progress = item.progress := by
  cases st <;> cases hs : item.started_at <;> unfold apply_status <;> simp [hs]

@[simp] theorem apply_status_error_message (now : Nat) (st : DownloadStatus) (item : DownloadItem) :
    (apply_status now st item).error_message = item.error_message := by
  cases st <;> cases hs : item.started_at <;> unfold apply_status <;> simp [hs]

@[simp] theorem apply_status_file_path (now : Nat) (st : DownloadStatus) (item : DownloadItem) :
    (apply_status now st item).file_path = item.file_path := by
  cases st <;> cases hs : item.started_at <;> unfold apply_status <;> simp [hs]

@[simp] theorem apply_status_status (now : Nat) (st : DownloadStatus) (item : DownloadItem) :
    (apply_status now st item).status = st := by
  cases st <;> cases hs : item.started_at <;> unfold apply_status <;> simp [hs]

theorem apply_status_terminal_completed_at (now : Nat) (st : DownloadStatus)
    (item : DownloadItem) (h : st = DownloadStatus.completed ∨ st = DownloadStatus.failed) :
    (apply_status now st item).completed_at = some now := by
  rcases h with h | h <;> subst h <;> cases hs : item.started_at <;>
    unfold apply_status <;> simp [hs]

theorem apply_status_downloading_started_at (now : Nat) (item : DownloadItem) :
    (apply_status now DownloadStatus.downloading item).started_at =
      some (item.started_at.getD now) := by
  cases hs : item.started_at <;> unfold apply_status <;> simp [hs]

theorem update_item_fields_id (item : DownloadItem) (st : Option DownloadStatus)
    (p : Option Rat) (e : Option String) (f : Option String) (now : Nat) :
    (update_item_fields item st p e f now).id = item.id := by
  cases st <;> cases p <;> cases e <;> cases f <;> simp [update_item_fields]

theorem update_item_fields_name (item : DownloadItem) (st : Option DownloadStatus)
    (p : Option Rat) (e : Option String) (f : Option String) (now : Nat) :
    (update_item_fields item st p e f now).name = item.name := by
  cases st <;> cases p <;> cases e <;> cases f <;> simp [update_item_fields]

theorem update_item_fields_url (item : DownloadItem) (st : Option DownloadStatus)
    (p : Option Rat) (e : Option String) (f : Option String) (now : Nat) :
    (update_item_fields item st p e f now).url = item.url := by
  cases st <;> cases p <;> cases e <;> cases f <;> simp [update_item_fields]

theorem update_item_fields_metadata (item : DownloadItem) (st : Option DownloadStatus)
    (p : Option Rat) (e : Option String) (f : Option String) (now : Nat) :
    (update_item_fields item st p e f now).metadata = item.metadata := by
  cases st <;> cases p <;> cases e <;> cases f <;> simp [update_item_fields]

theorem update_item_fields_none_status (item : DownloadItem)
    (p : Option Rat) (e : Option String) (f : Option String) (now : Nat) :
    (update_item_fields item none p e f now).status = item.status ∧
    (update_item_fields item none p e f now).started_at = item.started_at ∧
    (update_item_fields item none p e f now).completed_at = item.completed_at := by
  cases p <;> cases e <;> cases f <;> simp [update_item_fields]

theorem update_item_fields_none_progress (item : DownloadItem) (st : Option DownloadStatus)
    (e : Option String) (f : Option String) (now : Nat) :
    (update_item_fields item st none e f now).progress = item.progress := by
  cases st <;> cases e <;> cases f <;> simp [update_item_fields]

theorem update_item_fields_none_error (item : DownloadItem) (st : Option DownloadStatus)
    (p : Option Rat) (f : Option String) (now : Nat) :
    (update_item_fields item st p none f now).error_message = item.error_message := by
  cases st <;> cases p <;> cases f <;> simp [update_item_fields]

theorem update_item_fields_none_file (item : DownloadItem) (st : Option DownloadStatus)
    (p : Option Rat) (e : Option String) (now : Nat) :
    (update_item_fields item st p e none now).file_path = item.file_path := by
  cases st <;> cases p <;> cases e <;> simp [update_item_fields]

theorem update_item_fields_terminal_completed_at (item : DownloadItem) (st : DownloadStatus)
    (p : Option Rat) (e : Option String) (f : Option String) (now : Nat)
    (h : st = DownloadStatus.completed ∨ st = DownloadStatus.failed) :
    (update_item_fields item (some st) p e f now).completed_at = some now := by
  cases p <;> cases e <;> cases f <;>
    simp [update_item_fields, apply_status_terminal_completed_at now st item h]

theorem update_item_fields_downloading_started_at (item : DownloadItem)
    (p : Option Rat) (e : Option String) (f : Option String) (now : Nat) :
    (update_item_fields item (some DownloadStatus.downloading) p e f now).started_at =
      some (item.started_at.getD now) := by
  cases p <;> cases e <;> cases f <;>
    simp [update_item_fields, apply_status_downloading_started_at]

/-! ### Linear-scan lemmas -/

theorem update_first_item_length (ds : List DownloadItem) (item_id : String)
    (st : Option DownloadStatus) (p : Option Rat) (e : Option String) (f : Option String)
    (now : Nat) :
    (update_first_item ds item_id st p e f now).length = ds.length := by
  induction ds with
  | nil => rfl
  | cons d rest ih =>
    unfold update_first_item
    split <;> simp [ih]

theorem update_first_item_of_not_found (ds : List DownloadItem) (item_id : String)
    (st : Option DownloadStatus) (p : Option Rat) (e : Option String) (f : Option String)
    (now : Nat) (h : ∀ x ∈ ds, ¬ x.id = item_id) :
    update_first_item ds item_id st p e f now = ds := by
  induction ds with
  | nil => rfl
  | cons d rest ih =>
    have hd : ¬ d.id = item_id := h d (List.mem_cons_self d rest)
    unfold update_first_item
    rw [if_neg (by simp [hd])]
    rw [ih (fun x hx => h x (List.mem_cons_of_mem d hx))]

theorem update_first_item_find (ds : List DownloadItem) (item_id : String)
    (st : Option DownloadStatus) (p : Option Rat) (e : Option String) (f : Option String)
    (now : Nat) (d : DownloadItem)
    (h : ds.find? (fun x => x.id == item_id) = some d) :
    (update_first_item ds item_id st p e f now).find? (fun x => x.id == item_id) =
      some (update_item_fields d st p e f now) := by
  induction ds with
  | nil => simp [List.find?] at h
  | cons x rest ih =>
    by_cases hx : x.id = item_id
    · rw [List.find?_cons_of_pos _ (by simp [hx])] at h
      cases h
      unfold update_first_item
      rw [if_pos (by simp [hx])]
      exact List.find?_cons_of_pos _ (by simp [update_item_fields_id, hx])
    · rw [List.find?_cons_of_neg _ (by simp [hx])] at h
      unfold update_first_item
      rw [if_neg (by simp [hx])]
      rw [List.find?_cons_of_neg _ (by simp [hx])]
      exact ih h

theorem update_first_item_getElem (ds : List DownloadItem) (item_id : String)
    (st : Option DownloadStatus) (p : Option Rat) (e : Option String) (f : Option String)
    (now : Nat) (i : Nat) (x : DownloadItem)
    (h : ds[i]? = some x) (hx : ¬ x.id = item_id) :
    (update_first_item ds item_id st p e f now)[i]? = some x := by
  induction ds generalizing i with
  | nil => simp at h
  | cons d rest ih =>
    cases i with
    | zero =>
      simp at h
      subst h
      unfold update_first_item
      rw [if_neg (by simp [hx])]
      simp
    | succ n =>
      simp at h
      unfold update_first_item
      split
      · simpa using h
      · simpa using ih n h

/-! ### Counting lemmas -/

theorem countStatus_nil (st : DownloadStatus) : countStatus [] st = 0 := rfl

theorem countStatus_cons (d : DownloadItem) (ds : List DownloadItem) (st : DownloadStatus) :
    countStatus (d :: ds) st =
      (if d.status = st then 1 else 0) + countStatus ds st := by
  unfold countStatus
  rw [List.filter_cons]
  by_cases h : d.status = st
  · simp [h, Nat.add_comm]
  · simp [h]

theorem countStatus_append_single (ds : List DownloadItem) (d : DownloadItem)
    (st : DownloadStatus) :
    countStatus (ds ++ [d]) st = countStatus ds st + (if d.status = st then 1 else 0) := by
  induction ds with
  | nil => simp [countStatus_cons, countStatus_nil]
  | cons x rest ih => simp [countStatus_cons, ih, Nat.add_assoc]

theorem countStatus_completed_add_failed_le (ds : List DownloadItem) :
    countStatus ds DownloadStatus.completed + countStatus ds DownloadStatus.failed ≤
      ds.length := by
  induction ds with
  | nil => simp [countStatus_nil]
  | cons d rest ih =>
    rw [countStatus_cons, countStatus_cons]
    cases hd : d.status <;> simp [hd] <;> omega

/-! ### Manager update lemmas -/

theorem update_download_item_lookup (m : SessionManager) (sid item_id : String)
    (st : Option DownloadStatus) (p : Option Rat) (e : Option String) (f : Option String)
    (now : Nat) (k : String) :
    dlookup (update_download_item m sid item_id st p e f now).sessions k =
      match dlookup m.sessions sid with
      | none => dlookup m.sessions k
      | some s =>
        if k = sid then some (session_update_item s item_id st p e f now)
        else dlookup m.sessions k := by
  unfold update_download_item
  cases hs : dlookup m.sessions sid
  · rfl
  · simp [dlookup_dinsert]

theorem update_download_item_isSome (m : SessionManager) (sid item_id : String)
    (st : Option DownloadStatus) (p : Option Rat) (e : Option String) (f : Option String)
    (now : Nat) (k : String) :
    (dlookup (update_download_item m sid item_id st p e f now).sessions k).isSome =
      (dlookup m.sessions k).isSome := by
  rw [update_download_item_lookup]
  cases hs : dlookup m.sessions sid
  · rfl
  · by_cases hk : k = sid
    · subst hk
      simp [hs]
    · simp [hk]

theorem update_session_status_lookup (m : SessionManager) (sid : String)
    (status : SessionStatus) (now : Nat) (k : String) :
    dlookup (update_session_status m sid status now).sessions k =
      match dlookup m.sessions sid with
      | none => dlookup m.sessions k
      | some s =>
        if k = sid then
          some (
            let s1 := { s with status := status }
            if status == SessionStatus.running && s1.started_at.isNone then
              { s1 with started_at := some now }
            else if status == SessionStatus.completed || status == SessionStatus.cancelled then
              { s1 with completed_at := some now }
            else s1)
        else dlookup m.sessions k := by
  unfold update_session_status
  cases hs : dlookup m.sessions sid
  · rfl
  · simp [dlookup_dinsert]

theorem update_session_status_completed_lookup (m : SessionManager) (sid : String)
    (now : Nat) (s : DownloadSession) (hs : dlookup m.sessions sid = some s) :
    dlookup (update_session_status m sid SessionStatus.completed now).sessions sid =
      some { s with status := SessionStatus.completed, completed_at := some now } := by
  rw [update_session_status_lookup, hs]
  simp

theorem download_with_session_context_isSome (m : SessionManager) (sid : String)
    (item : DownloadItem) (o : WorkOutcome) (now : Nat) (k : String) :
    (dlookup ((download_with_session_context m sid item o now).2).sessions k).isSome =
      (dlookup m.sessions k).isSome := by
  cases o <;> simp [download_with_session_context, update_download_item_isSome]

theorem exec_fold_isSome (ds : List DownloadItem) (m : SessionManager) (sid : String)
    (work : DownloadItem → WorkOutcome) (now : Nat) (k : String) :
    (dlookup ((ds.foldl
        (fun acc item => (download_with_session_context acc sid item (work item) now).2)
        m).sessions) k).isSome = (dlookup m.sessions k).isSome := by
  induction ds generalizing m with
  | nil => rfl
  | cons d rest ih =>
    rw [List.foldl_cons, ih, download_with_session_context_isSome]

/-- When `execute_session_downloads` returns normally, the session is stored
with status completed and `completed_at` stamped with the call time. -/
theorem execute_ok_completed (m : SessionManager) (sid : String)
    (work : DownloadItem → WorkOutcome) (now : Nat) (m' : SessionManager)
    (h : execute_session_downloads m sid work now = Except.ok m') :
    ∃ s, dlookup m'.sessions sid = some s ∧ s.status = SessionStatus.completed ∧
      s.completed_at = some now := by
  unfold execute_session_downloads at h
  split at h
  · exact absurd h (by simp)
  · rename_i session hs
    split at h
    · exact absurd h (by simp)
    · have hsome : (dlookup ((session.downloads.foldl
          (fun acc item => (download_with_session_context acc sid item (work item) now).2)
          (update_session_status m sid SessionStatus.running now)).sessions) sid).isSome := by
        rw [exec_fold_isSome]
        rw [update_session_status_lookup, hs]
        simp
      cases hmid : dlookup ((session.downloads.foldl
          (fun acc item => (download_with_session_context acc sid item (work item) now).2)
          (update_session_status m sid SessionStatus.running now)).sessions) sid with
      | none => rw [hmid] at hsome; simp at hsome
      | some smid =>
        have hfin := update_session_status_completed_lookup _ sid now smid hmid
        have hm' : m'.sessions =
            (update_session_status (session.downloads.foldl
              (fun acc item => (download_with_session_context acc sid item (work item) now).2)
              (update_session_status m sid SessionStatus.running now)) sid
              SessionStatus.completed now).sessions := by
          cases h
          rfl
        refine ⟨{ smid with status := SessionStatus.completed, completed_at := some now },
          ?_, rfl, rfl⟩
        rw [hm', hfin]

/-! ### Expiry sweep lemmas -/

theorem cancel_session_sessions_derase (m : SessionManager) (sid : String) (now : Nat) :
    derase ((cancel_session m sid now).2).sessions sid = derase m.sessions sid := by
  unfold cancel_session
  split
  · rfl
  · split
    · rfl
    · simp [derase_dinsert]

theorem cleanup_session_sessions (m : SessionManager) (sid : String) (now : Nat) :
    ((cleanup_session m sid now).2).sessions = derase m.sessions sid := by
  unfold cleanup_session
  by_cases hs : (dlookup m.sessions sid).isNone
  · rw [if_pos hs]
    have hnone : dlookup m.sessions sid = none := by
      cases h2 : dlookup m.sessions sid
      · rfl
      · rw [h2] at hs; simp at hs
    rw [derase_of_lookup_none m.sessions sid hnone]
  · rw [if_neg hs]
    exact cancel_session_sessions_derase m sid now

theorem cleanup_fold_sessions (ids : List String) (m : SessionManager) (now : Nat) :
    ((ids.foldl (fun acc sid => (cleanup_session acc sid now).2) m).sessions) =
      ids.foldl derase m.sessions := by
  induction ids generalizing m with
  | nil => rfl
  | cons a rest ih =>
    rw [List.foldl_cons, List.foldl_cons, ih, cleanup_session_sessions]

theorem foldl_derase_eq_filter {α : Type} (ids : List String) (l : List (String × α)) :
    ids.foldl derase l = l.filter (fun e => decide (¬ e.1 ∈ ids)) := by
  induction ids generalizing l with
  | nil => simp
  | cons a rest ih =>
    rw [List.foldl_cons, ih]
    unfold derase
    rw [List.filter_filter]
    apply List.filter_congr
    intro e _
    by_cases h1 : e.1 ∈ rest <;> by_cases h2 : e.1 = a <;> simp [h1, h2]

theorem cleanup_session_config (m : SessionManager) (sid : String) (now : Nat) :
    ((cleanup_session m sid now).2).max_concurrent_sessions = m.max_concurrent_sessions ∧
    ((cleanup_session m sid now).2).session_timeout = m.session_timeout := by
  unfold cleanup_session cancel_session
  cases hs : dlookup m.sessions sid
  · simp
  · simp
    split <;> simp

theorem cleanup_fold_config (ids : List String) (m : SessionManager) (now : Nat) :
    ((ids.foldl (fun acc sid => (cleanup_session acc sid now).2) m).max_concurrent_sessions) =
      m.max_concurrent_sessions ∧
    ((ids.foldl (fun acc sid => (cleanup_session acc sid now).2) m).session_timeout) =
      m.session_timeout := by
  induction ids generalizing m with
  | nil => exact ⟨rfl, rfl⟩
  | cons a rest ih =>
    rw [List.foldl_cons]
    rcases ih ((cleanup_session m a now).2) with ⟨h1, h2⟩
    rcases cleanup_session_config m a now with ⟨h3, h4⟩
    exact ⟨h1.trans h3, h2.trans h4⟩

theorem cleanup_expired_sessions_config (m : SessionManager) (now : Nat) :
    (cleanup_expired_sessions m now).max_concurrent_sessions = m.max_concurrent_sessions ∧
    (cleanup_expired_sessions m now).session_timeout = m.session_timeout := by
  unfold cleanup_expired_sessions
  exact cleanup_fold_config _ m now

theorem mem_expired_ids_iff (m : SessionManager) (now : Nat)
    (hk : KeysUnique m.sessions) (e : String × DownloadSession) (he : e ∈ m.sessions) :
    (e.1 ∈ (m.sessions.filter (fun x => session_expired m now x.2)).map (fun x => x.1)) ↔
      session_expired m now e.2 = true := by
  constructor
  · intro h
    rcases List.mem_map.mp h with ⟨e2, he2, heq⟩
    rcases List.mem_filter.mp he2 with ⟨he2m, he2p⟩
    have heq2 : e = e2 := hk e he e2 he2m heq.symm
    rw [heq2]
    exact he2p
  · intro h
    exact List.mem_map.mpr ⟨e, List.mem_filter.mpr ⟨he, h⟩, rfl⟩

/-- The sweep keeps exactly the sessions whose age is within the timeout. -/
theorem cleanup_expired_sessions_sessions (m : SessionManager) (now : Nat)
    (hk : KeysUnique m.sessions) :
    (cleanup_expired_sessions m now).sessions =
      m.sessions.filter (fun e => !(session_expired m now e.2)) := by
  unfold cleanup_expired_sessions
  rw [cleanup_fold_sessions, foldl_derase_eq_filter]
  apply List.filter_congr
  intro e he
  have hiff := mem_expired_ids_iff m now hk e he
  by_cases hex : session_expired m now e.2 = true
  · simp [hex, hiff.mpr hex]
  · have hnm : ¬ (e.1 ∈ (m.sessions.filter
        (fun x => session_expired m now x.2)).map (fun x => x.1)) :=
      fun hmem => hex (hiff.mp hmem)
    simp [hex, hnm]

theorem dlookup_cleanup_expired (m : SessionManager) (now : Nat) (sid : String)
    (s : DownloadSession) (hk : KeysUnique m.sessions)
    (h : dlookup m.sessions sid = some s) (hexp : session_expired m now s = false) :
    dlookup (cleanup_expired_sessions m now).sessions sid = some s := by
  rw [cleanup_expired_sessions_sessions m now hk]
  apply dlookup_filter _ _ _ _ h
  simp [hexp]

theorem counters_consistent_apply (s : DownloadSession) (op : SessionOp)
    (h : counters_consistent s) : counters_consistent (apply_session_op s op) := by
  rcases h with ⟨h1, h2, h3⟩
  cases op with
  | add id name url md =>
    refine ⟨by simp [apply_session_op, add_download], ?_, ?_⟩
    · simp [apply_session_op, add_download, countStatus_append_single, mkDownloadItem, h2]
    · simp [apply_session_op, add_download, countStatus_append_single, mkDownloadItem, h3]
  | update item_id st p e f now =>
    refine ⟨?_, rfl, rfl⟩
    simp [apply_session_op, session_update_item, update_first_item_length, h1]

theorem counters_consistent_foldl (ops : List SessionOp) (s : DownloadSession)
    (h : counters_consistent s) :
    counters_consistent (ops.foldl apply_session_op s) := by
  induction ops generalizing s with
  | nil => exact h
  | cons op rest ih => exact ih _ (counters_consistent_apply s op h)

/-! ### Claim theorems -/

/-- C10: `get_progress_summary` is total on an empty session: with no items
and `total_items = 0` the guarded division yields overall progress 0 and the
completed, failed, downloading and queued counts are all 0. Division by zero
cannot occur: the `total_items > 0` guard routes the empty case to the
constant 0. -/
theorem progress_summary_empty_session (s : DownloadSession)
    (hd : s.downloads = []) (ht : s.total_items = 0) :
    (get_progress_summary s).overall_progress = 0 ∧
    (get_progress_summary s).completed_items = 0 ∧
    (get_progress_summary s).failed_items = 0 ∧
    (get_progress_summary s).downloading_items = 0 ∧
    (get_progress_summary s).queued_items = 0 := by
  unfold get_progress_summary
  simp [hd, ht, countStatus_nil]

/-- Witness for C10 at the freshly created empty session. -/
theorem progress_summary_empty_session_witness :
    (get_progress_summary (fresh_session "batch" "sid0" [] 0)).overall_progress = 0 ∧
    (get_progress_summary (fresh_session "batch" "sid0" [] 0)).completed_items = 0 ∧
    (get_progress_summary (fresh_session "batch" "sid0" [] 0)).failed_items = 0 ∧
    (get_progress_summary (fresh_session "batch" "sid0" [] 0)).downloading_items = 0 ∧
    (get_progress_summary (fresh_session "batch" "sid0" [] 0)).queued_items = 0 :=
  progress_summary_empty_session (fresh_session "batch" "sid0" [] 0) rfl rfl

/-- C7: starting from a freshly created session, after any sequence of
`add_download` (with caller-constructed items) and item-update operations,
`total_items` equals the length of the download list, `completed_items` and
`failed_items` equal the counts of completed and failed items, and therefore
`completed_items + failed_items ≤ total_items`. -/
theorem session_counter_invariant (ops : List SessionOp) (name sid : String)
    (md : Metadata) (now : Nat) :
    counters_consistent (ops.foldl apply_session_op (fresh_session name sid md now)) ∧
    (ops.foldl apply_session_op (fresh_session name sid md now)).completed_items +
      (ops.foldl apply_session_op (fresh_session name sid md now)).failed_items ≤
      (ops.foldl apply_session_op (fresh_session name sid md now)).total_items := by
  have h0 : counters_consistent (fresh_session name sid md now) := ⟨rfl, rfl, rfl⟩
  have h := counters_consistent_foldl ops _ h0
  refine ⟨h, ?_⟩
  rcases h with ⟨h1, h2, h3⟩
  rw [h1, h2, h3]
  exact countStatus_completed_add_failed_le _

/-- C8: the executor fails with the session-not-found error when the id is
unknown, fails with the invalid-state error when the session is not pending,
and a second invocation after a successful one fails with the invalid-state
error, because the first one left the session in completed status. -/
theorem execute_session_downloads_errors (m : SessionManager) (sid : String)
    (work work2 : DownloadItem → WorkOutcome) (now now2 : Nat) :
    (dlookup m.sessions sid = none →
      execute_session_downloads m sid work now = Except.error ExecError.sessionNotFound) ∧
    (∀ s, dlookup m.sessions sid = some s → ¬ s.status = SessionStatus.pending →
      execute_session_downloads m sid work now = Except.error ExecError.invalidState) ∧
    (∀ m', execute_session_downloads m sid work now = Except.ok m' →
      execute_session_downloads m' sid work2 now2 = Except.error ExecError.invalidState) := by
  refine ⟨?_, ?_, ?_⟩
  · intro h
    unfold execute_session_downloads
    rw [h]
  · intro s hs hp
    unfold execute_session_downloads
    rw [hs]
    simp [hp]
  · intro m' h
    rcases execute_ok_completed m sid work now m' h with ⟨s, hs, hst, _⟩
    unfold execute_session_downloads
    rw [hs]
    simp [hst]

/-- Witness for C8: an empty registry rejects any id with the
session-not-found error. -/
theorem execute_session_downloads_errors_witness :
    execute_session_downloads {} "nope" (fun _ => WorkOutcome.failure "x") 0 =
      Except.error ExecError.sessionNotFound :=
  (execute_session_downloads_errors {} "nope" (fun _ => WorkOutcome.failure "x")
    (fun _ => WorkOutcome.failure "x") 0 0).1 rfl

/-- C1 counterexample: a session in which every item's task fails still ends
with session status completed — not a failed status, which the source
`SessionStatus` enum does not even contain. Here both items fail, so
`completed_items = 0` and `failed_items = 2 = total_items`, yet the stored
status is completed, refuting the all-failed-implies-Failed clause. -/
theorem all_failed_session_marked_completed :
    (dlookup all_fail_final.sessions "s2").map
      (fun s => (s.status, s.completed_items, s.failed_items, s.total_items)) =
      some (SessionStatus.completed, 0, 2, 2) := by
  rfl

/-- C1 amended: the executor marks the session completed whenever it returns
normally, regardless of the per-item outcomes (the source enum has no failed
session status and line 646 of SessionManager.py always writes COMPLETED);
the five-item run with items 2 and 4 failing still yields
`completed_items = 3` and `failed_items = 2`, with status completed. -/
theorem execute_final_status_always_completed :
    (∀ m sid work now m', execute_session_downloads m sid work now = Except.ok m' →
      ∃ s, dlookup m'.sessions sid = some s ∧ s.status = SessionStatus.completed) ∧
    ((dlookup partial_run_final.sessions "s1").map
        (fun s => (s.status, s.completed_items, s.failed_items, s.total_items)) =
      some (SessionStatus.completed, 3, 2, 5)) := by
  constructor
  · intro m sid work now m' h
    rcases execute_ok_completed m sid work now m' h with ⟨s, h1, h2, _⟩
    exact ⟨s, h1, h2⟩
  · rfl

/-- Witness for C1: the general clause applied to the concrete five-item run. -/
theorem execute_final_status_always_completed_witness :
    ∃ s, dlookup partial_run_final.sessions "s1" = some s ∧
      s.status = SessionStatus.completed :=
  execute_final_status_always_completed.1 partial_run_base "s1" partial_work 10
    partial_run_final rfl

/-- C4 counterexample: the registry's sweep ignores the spec's grace-period
clause. `stale_terminal_session` is terminal with `completed_at = 0`, far past
any grace period at time 100, so the spec's expiry predicate calls it expired;
but its age is 0, so the code's sweep leaves it in the registry untouched. -/
theorem expiry_sweep_ignores_grace_period :
    session_expired_spec stale_terminal_mgr.session_timeout 10 100 stale_terminal_session
      = true ∧
    session_expired stale_terminal_mgr 100 stale_terminal_session = false ∧
    dlookup (cleanup_expired_sessions stale_terminal_mgr 100).sessions "s" =
      some stale_terminal_session := by
  refine ⟨rfl, rfl, rfl⟩

/-- C4 amended: the sweep removes exactly the sessions whose age
`now - createdAt` exceeds the configured timeout; terminal status, completed
time and any grace period play no role, and every session within the timeout
is left in the registry with its state untouched. -/
theorem cleanup_expired_exact (m : SessionManager) (now : Nat)
    (hk : KeysUnique m.sessions) :
    (cleanup_expired_sessions m now).sessions =
      m.sessions.filter (fun e => !(session_expired m now e.2)) ∧
    (∀ sid s, dlookup m.sessions sid = some s → session_expired m now s = false →
      dlookup (cleanup_expired_sessions m now).sessions sid = some s) :=
  ⟨cleanup_expired_sessions_sessions m now hk,
   fun sid s h hexp => dlookup_cleanup_expired m now sid s hk h hexp⟩

/-- Witness for C4: at time 100 with timeout 60, the session created at 0 is
swept and the session created at 90 survives unchanged. -/
theorem cleanup_expired_exact_witness :
    (cleanup_expired_sessions sweep_w_mgr 100).sessions = [("new", sweep_w_new)] ∧
    dlookup (cleanup_expired_sessions sweep_w_mgr 100).sessions "new" =
      some sweep_w_new := by
  constructor
  · rw [(cleanup_expired_exact sweep_w_mgr 100 (by decide)).1]
    rfl
  · exact (cleanup_expired_exact sweep_w_mgr 100 (by decide)).2 "new" sweep_w_new rfl rfl

/-- C2: cancelling a known non-terminal session returns true, sets the status
to cancelled, stamps the session's `completed_at`, rewrites every item still
queued or downloading to failed with message "Session cancelled" (stamping the
item's `completed_at` only when unset) while leaving every other item
unchanged, and leaves every other session and the lock/handle maps untouched;
it returns false, changing nothing, when the id is unknown or the session is
already terminal. -/
theorem cancel_session_spec (m : SessionManager) (sid : String) (now : Nat) :
    (dlookup m.sessions sid = none → cancel_session m sid now = (false, m)) ∧
    (∀ s, dlookup m.sessions sid = some s →
      ((s.status = SessionStatus.completed ∨ s.status = SessionStatus.cancelled) →
        cancel_session m sid now = (false, m)) ∧
      (¬ (s.status = SessionStatus.completed ∨ s.status = SessionStatus.cancelled) →
        (cancel_session m sid now).1 = true ∧
        ((cancel_session m sid now).2).session_locks = m.session_locks ∧
        ((cancel_session m sid now).2).active_futures = m.active_futures ∧
        (∀ k, ¬ k = sid →
          dlookup ((cancel_session m sid now).2).sessions k = dlookup m.sessions k) ∧
        ∃ s2, dlookup ((cancel_session m sid now).2).sessions sid = some s2 ∧
          s2.status = SessionStatus.cancelled ∧
          s2.completed_at = some now ∧
          s2.downloads = s.downloads.map (cancel_item_on_session_cancel now) ∧
          (∀ d, (d.status = DownloadStatus.queued ∨ d.status = DownloadStatus.downloading) →
            (cancel_item_on_session_cancel now d).status = DownloadStatus.failed ∧
            (cancel_item_on_session_cancel now d).error_message = some "Session cancelled" ∧
            (cancel_item_on_session_cancel now d).completed_at =
              (if d.completed_at.isNone then some now else d.completed_at)) ∧
          (∀ d, ¬ (d.status = DownloadStatus.queued ∨ d.status = DownloadStatus.downloading) →
            cancel_item_on_session_cancel now d = d))) := by
  constructor
  · intro h
    unfold cancel_session
    rw [h]
  · intro s hs
    constructor
    · intro hterm
      unfold cancel_session
      rw [hs]
      simp only []
      rw [if_pos (by rcases hterm with h | h <;> simp [h])]
    · intro hterm
      have hbeq : (s.status == SessionStatus.completed
          || s.status == SessionStatus.cancelled) = false := by
        rcases ht : s.status <;> simp_all
      have hcan : cancel_session m sid now =
          (true, { m with sessions := dinsert m.sessions sid (cancelled_session s now) }) := by
        unfold cancel_session
        rw [hs]
        simp only [hbeq]
        rfl
      rw [hcan]
      refine ⟨rfl, rfl, rfl, ?_, ?_⟩
      · intro k hk
        simp [dlookup_dinsert, hk]
      · refine ⟨cancelled_session s now, by simp [dlookup_dinsert], rfl, rfl, rfl, ?_, ?_⟩
        · intro d hd
          unfold cancel_item_on_session_cancel
          rw [if_pos (by rcases hd with h | h <;> simp [h])]
          exact ⟨rfl, rfl, rfl⟩
        · intro d hd
          unfold cancel_item_on_session_cancel
          rw [if_neg ?_]
          intro hb
          rcases ht : d.status <;> rw [ht] at hb <;> simp_all

/-- Witness for C2: cancelling the two-item running session succeeds and the
queued item is rewritten to failed with the fixed message while the completed
item keeps its record. -/
theorem cancel_session_spec_witness :
    (cancel_session cancel_w_mgr "s1" 7).1 = true :=
  ((((cancel_session_spec cancel_w_mgr "s1" 7).2 cancel_w_session rfl).2) (by decide)).1

/-- C3: `create_session` first runs the expiry sweep; it fails with the
capacity error exactly when the post-sweep count of pending-or-running
sessions has reached the configured maximum, in which case the returned state
is the swept state with all three maps unchanged; otherwise it stores a fresh
empty pending session under the newly drawn unique id, installs the id in the
lock and handle maps, and returns the session. -/
theorem create_session_spec (m : SessionManager) (name : String) (md : Option Metadata)
    (new_id : String) (now : Nat)
    (hfresh : dlookup (cleanup_expired_sessions m now).sessions new_id = none) :
    (cleanup_expired_sessions m now).max_concurrent_sessions = m.max_concurrent_sessions ∧
    (fresh_session name new_id (md.getD []) now).status = SessionStatus.pending ∧
    (fresh_session name new_id (md.getD []) now).downloads = [] ∧
    (fresh_session name new_id (md.getD []) now).total_items = 0 ∧
    (get_active_sessions_count (cleanup_expired_sessions m now) ≥ m.max_concurrent_sessions →
      create_session m name md new_id now =
        (Except.error CreateError.capacityExceeded, cleanup_expired_sessions m now)) ∧
    (get_active_sessions_count (cleanup_expired_sessions m now) < m.max_concurrent_sessions →
      create_session m name md new_id now =
        (Except.ok (fresh_session name new_id (md.getD []) now),
         { cleanup_expired_sessions m now with
           sessions := (cleanup_expired_sessions m now).sessions ++
             [(new_id, fresh_session name new_id (md.getD []) now)],
           session_locks := kinsert (cleanup_expired_sessions m now).session_locks new_id,
           active_futures := kinsert
             (cleanup_expired_sessions m now).active_futures new_id })) := by
  have hcfg := (cleanup_expired_sessions_config m now).1
  refine ⟨hcfg, rfl, rfl, rfl, ?_, ?_⟩
  · intro hge
    unfold create_session
    rw [if_pos (by rw [hcfg]; exact hge)]
  · intro hlt
    unfold create_session
    rw [if_neg (by rw [hcfg]; omega)]
    simp only [dinsert_of_lookup_none _ _ _ hfresh]

/-- Witness for C3: creating a session in an empty registry succeeds with the
fresh pending session installed under the drawn id. -/
theorem create_session_spec_witness :
    create_session {} "batch" none "s9" 3 =
      (Except.ok (fresh_session "batch" "s9" [] 3),
       { sessions := [("s9", fresh_session "batch" "s9" [] 3)],
         session_locks := ["s9"], active_futures := ["s9"],
         max_concurrent_sessions := 1, session_timeout := 60 }) := by
  have h := (create_session_spec {} "batch" none "s9" 3 rfl).2.2.2.2.2 (by decide)
  rw [h]
  rfl

/-- C5 counterexample: repeating a completed-status update at a later time
overwrites the already-set `completed_at`: after the first update at time 5
the item carries `completed_at = 5`, and the second update at time 9 restamps
it to 9, refuting the set-once claim. -/
theorem completed_at_overwritten_counterexample :
    (dlookup restamp_m3.sessions "s1").map
      (fun s => s.downloads.map (fun d => d.completed_at)) = some [some 5] ∧
    (dlookup restamp_m4.sessions "s1").map
      (fun s => s.downloads.map (fun d => d.completed_at)) = some [some 9] := by
  exact ⟨rfl, rfl⟩

/-- C5 amended: every `update_download_item` call that sets a completed or
failed status restamps the found item's `completed_at` with the current time,
whether or not a value was already present (SessionManager.py line 441 assigns
unconditionally); `completed_at` is therefore last-terminal-write, not
first-write-wins. -/
theorem update_terminal_restamps_completed_at (m : SessionManager) (sid item_id : String)
    (st : DownloadStatus) (p : Option Rat) (e f : Option String) (now : Nat)
    (s : DownloadSession) (d : DownloadItem)
    (hs : dlookup m.sessions sid = some s)
    (hd : s.downloads.find? (fun x => x.id == item_id) = some d)
    (hst : st = DownloadStatus.completed ∨ st = DownloadStatus.failed) :
    ∃ s2 d2,
      dlookup (update_download_item m sid item_id (some st) p e f now).sessions sid
        = some s2 ∧
      s2.downloads.find? (fun x => x.id == item_id) = some d2 ∧
      d2.completed_at = some now := by
  have h1 : dlookup (update_download_item m sid item_id (some st) p e f now).sessions sid
      = some (session_update_item s item_id (some st) p e f now) := by
    rw [update_download_item_lookup, hs]
    simp
  refine ⟨_, update_item_fields d (some st) p e f now, h1, ?_, ?_⟩
  · simp only [session_update_item]
    exact update_first_item_find _ _ _ _ _ _ _ _ hd
  · exact update_item_fields_terminal_completed_at d st p e f now hst

/-- Witness for C5: the amended restamping applied to the one-item session at
time 5. -/
theorem update_terminal_restamps_completed_at_witness :
    ∃ s2 d2,
      dlookup (update_download_item restamp_m2 "s1" "i1"
        (some DownloadStatus.completed) none none none 5).sessions "s1" = some s2 ∧
      s2.downloads.find? (fun x => x.id == "i1") = some d2 ∧
      d2.completed_at = some 5 :=
  update_terminal_restamps_completed_at restamp_m2 "s1" "i1" DownloadStatus.completed
    none none none 5 _ _ rfl rfl (Or.inl rfl)

/-- C6: an `update_download_item` call with downloading status stamps
`started_at` only when it is unset — the first transition records the current
time and a second downloading update leaves the recorded value unchanged. -/
theorem update_downloading_started_at_once (m : SessionManager) (sid item_id : String)
    (p p2 : Option Rat) (e e2 f f2 : Option String) (now now2 : Nat)
    (s : DownloadSession) (d : DownloadItem)
    (hs : dlookup m.sessions sid = some s)
    (hd : s.downloads.find? (fun x => x.id == item_id) = some d) :
    ∃ s1 d1 s2 d2,
      dlookup (update_download_item m sid item_id
        (some DownloadStatus.downloading) p e f now).sessions sid = some s1 ∧
      s1.downloads.find? (fun x => x.id == item_id) = some d1 ∧
      d1.started_at = some (d.started_at.getD now) ∧
      (d.started_at = none → d1.started_at = some now) ∧
      (∀ t, d.started_at = some t → d1.started_at = some t) ∧
      dlookup (update_download_item
        (update_download_item m sid item_id (some DownloadStatus.downloading) p e f now)
        sid item_id (some DownloadStatus.downloading) p2 e2 f2 now2).sessions sid
        = some s2 ∧
      s2.downloads.find? (fun x => x.id == item_id) = some d2 ∧
      d2.started_at = d1.started_at := by
  have h1 : dlookup (update_download_item m sid item_id
      (some DownloadStatus.downloading) p e f now).sessions sid
      = some (session_update_item s item_id (some DownloadStatus.downloading) p e f now) := by
    rw [update_download_item_lookup, hs]
    simp
  have hd1 : (session_update_item s item_id
      (some DownloadStatus.downloading) p e f now).downloads.find?
      (fun x => x.id == item_id)
      = some (update_item_fields d (some DownloadStatus.downloading) p e f now) := by
    simp only [session_update_item]
    exact update_first_item_find _ _ _ _ _ _ _ _ hd
  have hstart1 := update_item_fields_downloading_started_at d p e f now
  have h2 : dlookup (update_download_item
      (update_download_item m sid item_id (some DownloadStatus.downloading) p e f now)
      sid item_id (some DownloadStatus.downloading) p2 e2 f2 now2).sessions sid
      = some (session_update_item
        (session_update_item s item_id (some DownloadStatus.downloading) p e f now)
        item_id (some DownloadStatus.downloading) p2 e2 f2 now2) := by
    rw [update_download_item_lookup, h1]
    simp
  have hd2 : (session_update_item
      (session_update_item s item_id (some DownloadStatus.downloading) p e f now)
      item_id (some DownloadStatus.downloading) p2 e2 f2 now2).downloads.find?
      (fun x => x.id == item_id)
      = some (update_item_fields
        (update_item_fields d (some DownloadStatus.downloading) p e f now)
        (some DownloadStatus.downloading) p2 e2 f2 now2) := by
    simp only [session_update_item]
    exact update_first_item_find _ _ _ _ _ _ _ _ hd1
  have hstart2 := update_item_fields_downloading_started_at
    (update_item_fields d (some DownloadStatus.downloading) p e f now) p2 e2 f2 now2
  refine ⟨_, _, _, _, h1, hd1, hstart1, ?_, ?_, h2, hd2, ?_⟩
  · intro hnone
    rw [hstart1, hnone]
    rfl
  · intro t ht
    rw [hstart1, ht]
    rfl
  · rw [hstart2, hstart1]
    rfl

/-- Witness for C6 on the one-item session: a first downloading update at time
3 and a second at time 4 leave `started_at = 3`. -/
theorem update_downloading_started_at_once_witness :
    ∃ s1 d1 s2 d2,
      dlookup (update_download_item dl_w_mgr "s1" "i1"
        (some DownloadStatus.downloading) none none none 3).sessions "s1" = some s1 ∧
      s1.downloads.find? (fun x => x.id == "i1") = some d1 ∧
      d1.started_at = some (Option.getD none 3) ∧
      ((none : Option Nat) = none → d1.started_at = some 3) ∧
      (∀ t, (none : Option Nat) = some t → d1.started_at = some t) ∧
      dlookup (update_download_item
        (update_download_item dl_w_mgr "s1" "i1"
          (some DownloadStatus.downloading) none none none 3)
        "s1" "i1" (some DownloadStatus.downloading) none none none 4).sessions "s1"
        = some s2 ∧
      s2.downloads.find? (fun x => x.id == "i1") = some d2 ∧
      d2.started_at = d1.started_at :=
  update_downloading_started_at_once dl_w_mgr "s1" "i1" none none none none none none 3 4
    _ _ rfl rfl

/-- C9 counterexample: an `update_download_item` call with an unknown item id
is not a no-op. After `cancel_session` marks the only (queued) item failed
without recomputing the counters, the bogus update's unconditional rescan
changes `failed_items` from 0 to 1, so the registry state changes. -/
theorem unknown_item_update_not_noop :
    (dlookup stale_mgr_cancelled.sessions "s1").map (fun s => s.failed_items) = some 0 ∧
    (dlookup stale_mgr_bogus_update.sessions "s1").map (fun s => s.failed_items) = some 1 ∧
    ¬ stale_mgr_bogus_update = stale_mgr_cancelled := by
  refine ⟨rfl, rfl, ?_⟩
  decide

/-- C9 amended: `update_download_item` keeps set-if-present semantics for the
located item — absent arguments leave the corresponding fields unchanged, the
identity fields are never touched, every other item and session and the
lock/handle maps are untouched — and an unknown session id is a strict no-op;
but with a known session the call always ends by recomputing
`completed_items`/`failed_items` from the current item statuses, so an unknown
item id leaves the item list unchanged while still rewriting the two counters
(a no-op only when they were already consistent). -/
theorem update_download_item_frame (m : SessionManager) (sid item_id : String)
    (st : Option DownloadStatus) (p : Option Rat) (e f : Option String) (now : Nat) :
    (dlookup m.sessions sid = none → update_download_item m sid item_id st p e f now = m) ∧
    (∀ s, dlookup m.sessions sid = some s →
      (update_download_item m sid item_id st p e f now).session_locks = m.session_locks ∧
      (update_download_item m sid item_id st p e f now).active_futures = m.active_futures ∧
      (update_download_item m sid item_id st p e f now).max_concurrent_sessions =
        m.max_concurrent_sessions ∧
      (update_download_item m sid item_id st p e f now).session_timeout =
        m.session_timeout ∧
      (∀ k, ¬ k = sid →
        dlookup (update_download_item m sid item_id st p e f now).sessions k =
          dlookup m.sessions k) ∧
      ∃ s2, dlookup (update_download_item m sid item_id st p e f now).sessions sid
          = some s2 ∧
        s2.name = s.name ∧ s2.session_id = s.session_id ∧ s2.created_at = s.created_at ∧
        s2.started_at = s.started_at ∧ s2.completed_at = s.completed_at ∧
        s2.status = s.status ∧ s2.metadata = s.metadata ∧ s2.total_items = s.total_items ∧
        s2.completed_items = countStatus s2.downloads DownloadStatus.completed ∧
        s2.failed_items = countStatus s2.downloads DownloadStatus.failed ∧
        s2.downloads.length = s.downloads.length ∧
        ((∀ x ∈ s.downloads, ¬ x.id = item_id) → s2.downloads = s.downloads) ∧
        (∀ (i : Nat) (x : DownloadItem), s.downloads[i]? = some x → ¬ x.id = item_id →
          s2.downloads[i]? = some x) ∧
        (∀ d, s.downloads.find? (fun x => x.id == item_id) = some d →
          s2.downloads.find? (fun x => x.id == item_id) =
            some (update_item_fields d st p e f now) ∧
          (update_item_fields d st p e f now).id = d.id ∧
          (update_item_fields d st p e f now).name = d.name ∧
          (update_item_fields d st p e f now).url = d.url ∧
          (update_item_fields d st p e f now).metadata = d.metadata ∧
          (st = none → (update_item_fields d st p e f now).status = d.status ∧
            (update_item_fields d st p e f now).started_at = d.started_at ∧
            (update_item_fields d st p e f now).completed_at = d.completed_at) ∧
          (p = none → (update_item_fields d st p e f now).progress = d.progress) ∧
          (e = none →
            (update_item_fields d st p e f now).error_message = d.error_message) ∧
          (f = none → (update_item_fields d st p e f now).file_path = d.file_path))) := by
  constructor
  · intro h
    unfold update_download_item
    rw [h]
  · intro s hs
    have hrec : update_download_item m sid item_id st p e f now =
        { m with sessions := dinsert m.sessions sid (session_update_item s item_id st p e f now) } := by
      unfold update_download_item
      rw [hs]
    rw [hrec]
    refine ⟨rfl, rfl, rfl, rfl, ?_, ?_⟩
    · intro k hk
      simp [dlookup_dinsert, hk]
    · refine ⟨session_update_item s item_id st p e f now, by simp [dlookup_dinsert],
        rfl, rfl, rfl, rfl, rfl, rfl, rfl, rfl, rfl, rfl, ?_, ?_, ?_, ?_⟩
      · exact update_first_item_length s.downloads item_id st p e f now
      · intro hnone
        exact update_first_item_of_not_found s.downloads item_id st p e f now hnone
      · intro i x hx hxid
        exact update_first_item_getElem s.downloads item_id st p e f now i x hx hxid
      · intro d hd
        refine ⟨update_first_item_find s.downloads item_id st p e f now d hd,
          update_item_fields_id d st p e f now,
          update_item_fields_name d st p e f now,
          update_item_fields_url d st p e f now,
          update_item_fields_metadata d st p e f now, ?_, ?_, ?_, ?_⟩
        · intro hst
          subst hst
          exact update_item_fields_none_status d p e f now
        · intro hp
          subst hp
          exact update_item_fields_none_progress d st e f now
        · intro he
          subst he
          exact update_item_fields_none_error d st p f now
        · intro hf
          subst hf
          exact update_item_fields_none_file d st p e now

/-- Witness for C9: the unknown-session clause applied to the empty registry. -/
theorem update_download_item_frame_witness :
    update_download_item {} "zz" "i" none none none none 0 = {} :=
  (update_download_item_frame {} "zz" "i" none none none none 0).1 rfl

end MusicDownloader
